import Mathlib

/-!
# Verification of the blockchain governance monitor

A shallow embedding of `ai-backend/blockchain/monitor.py`: the event
processor (`EventProcessor`), the anomaly detector (`AnomalyDetector`),
the per-pass block-scanning step of `BlockchainMonitor._monitor_chain`
together with `_process_block`, and the alert-retention pass of
`BlockchainMonitor._cleanup_old_data`.

Modelling conventions:
* Python `datetime` values are modelled as rational numbers of seconds
  since the epoch (`ℚ`); `(a - b).total_seconds()` becomes plain rational
  subtraction.  Float comparisons against the thresholds (`0.95`, `60`,
  `300`) are modelled exactly over `ℚ`; with window sizes bounded by 100
  the float and rational comparisons agree.
* Python `dict` / `defaultdict` values are modelled as association lists
  (`List (k × v)`) with in-place update and append-on-new-key, matching
  insertion-order semantics.
* Python `set` is modelled as `Finset String`.
* `collections.deque(maxlen=100)` is modelled by `dequeAppend`.
* `logging` calls are modelled by accumulating `LogMsg` entries in the
  structure holding the emitting component.
-/

namespace Monitor

/-- Log levels relevant to the monitor (`logger.info` / `logger.warning` /
`logger.error`). -/
inductive LogLevel where
  | info
  | warning
  | error
deriving DecidableEq, Repr

/-- One emitted log line. -/
structure LogMsg where
  level : LogLevel
  msg : String
deriving DecidableEq, Repr

/-- The `ChainType` enum of `monitor.py`. -/
inductive ChainType where
  | ethereum
  | polygon
  | arbitrum
  | optimism
  | bsc
deriving DecidableEq, Repr

/-- Source `ChainType.value` (the string payload of the Python enum). -/
def ChainType.value : ChainType → String
  | .ethereum => "ethereum"
  | .polygon => "polygon"
  | .arbitrum => "arbitrum"
  | .optimism => "optimism"
  | .bsc => "bsc"

/-- Dataclass `VoteEvent` of `monitor.py`.  `event_time` is seconds since
the epoch as an exact rational. -/
structure VoteEvent where
  proposal_id : Nat
  voter : String
  support : Bool
  voting_power : Nat
  reason : String
  event_time : ℚ
  chain : ChainType
deriving DecidableEq, Repr

/-- Dataclass `ProposalEvent` of `monitor.py`. -/
structure ProposalEvent where
  proposal_id : Nat
  proposer : String
  title : String
  description : String
  start_block : Nat
  end_block : Nat
  quorum : Nat
  event_time : ℚ
  chain : ChainType
deriving DecidableEq, Repr

/-! ## Association-list model of Python dicts -/

/-- Dict lookup: first binding of the key, if any (`d[k]` / `k in d`). -/
def lookupA {κ α : Type} [DecidableEq κ] : List (κ × α) → κ → Option α
  | [], _ => none
  | (k, v) :: rest, key => if key = k then some v else lookupA rest key

/-- Dict store `d[k] = v`: update the existing binding in place, else
append a new binding (Python dict insertion order). -/
def insertA {κ α : Type} [DecidableEq κ] : List (κ × α) → κ → α → List (κ × α)
  | [], key, v => [(key, v)]
  | (k, w) :: rest, key, v =>
    if key = k then (key, v) :: rest else (k, w) :: insertA rest key v

theorem lookupA_insertA_self {κ α : Type} [DecidableEq κ]
    (m : List (κ × α)) (k : κ) (v : α) : lookupA (insertA m k v) k = some v := by
  induction m with
  | nil => simp [insertA, lookupA]
  | cons hd tl ih =>
    obtain ⟨k', w⟩ := hd
    by_cases h : k = k' <;> simp [insertA, lookupA, h, ih]

theorem lookupA_insertA_ne {κ α : Type} [DecidableEq κ]
    (m : List (κ × α)) (k k' : κ) (v : α) (h : k' ≠ k) :
    lookupA (insertA m k v) k' = lookupA m k' := by
  induction m with
  | nil => simp [insertA, lookupA, h]
  | cons hd tl ih =>
    obtain ⟨k₀, w⟩ := hd
    by_cases hk : k = k₀
    · subst hk; simp [insertA, lookupA, h]
    · by_cases hk' : k' = k₀ <;> simp [insertA, lookupA, hk, hk', ih]

/-! ## Bounded deque (`collections.deque(maxlen=cap)`) -/

/-- Append to a bounded deque: add at the back, then drop from the front
whatever exceeds the capacity. -/
def dequeAppend {α : Type} (cap : Nat) (q : List α) (x : α) : List α :=
  let q2 := q ++ [x]
  q2.drop (q2.length - cap)

theorem dequeAppend_length {α : Type} (cap : Nat) (q : List α) (x : α) :
    (dequeAppend cap q x).length = min (q.length + 1) cap := by
  simp [dequeAppend]
  omega

/-- Folding `dequeAppend` over a list from a state within capacity keeps
exactly the trailing `cap` elements of the whole stream. -/
theorem foldl_dequeAppend {α : Type} (cap : Nat) (l : List α) :
    ∀ (q : List α), q.length ≤ cap →
      l.foldl (dequeAppend cap) q = (q ++ l).drop ((q ++ l).length - cap) := by
  induction l with
  | nil =>
    intro q hq
    have h0 : q.length - cap = 0 := by omega
    simp [h0]
  | cons x xs ih =>
    intro q hq
    have hstep : dequeAppend cap q x = (q ++ [x]).drop ((q ++ [x]).length - cap) := rfl
    have hlen : (dequeAppend cap q x).length ≤ cap := by
      rw [dequeAppend_length]; omega
    calc (x :: xs).foldl (dequeAppend cap) q
        = xs.foldl (dequeAppend cap) (dequeAppend cap q x) := rfl
      _ = (dequeAppend cap q x ++ xs).drop ((dequeAppend cap q x ++ xs).length - cap) :=
          ih _ hlen
      _ = (q ++ x :: xs).drop ((q ++ x :: xs).length - cap) := by
          rw [hstep, ← List.drop_append_of_le_length (Nat.sub_le _ _), List.drop_drop]
          have heq : q ++ [x] ++ xs = q ++ x :: xs := by simp
          rw [heq]
          congr 1
          simp only [List.length_drop, List.length_append, List.length_cons,
            List.length_nil]
          omega

/-! ## Anomaly detector (`AnomalyDetector` in `monitor.py`) -/

/-- One entry of `AnomalyDetector.alerts` (the dict built in
`_create_alert`).  `timestamp` models `datetime.now()` at creation. -/
structure Alert where
  type : String
  timestamp : ℚ
  proposal_id : Nat
  voter : String
  message : String
  severity : String
deriving DecidableEq, Repr

/-- Source `AnomalyDetector._get_severity`: the `severity_map` lookup with
default `medium`. -/
def getSeverity (alert_type : String) : String :=
  if alert_type = "large_vote" then "medium"
  else if alert_type = "rapid_voting" then "low"
  else if alert_type = "coordinated_voting" then "high"
  else "medium"

/-- State of an `AnomalyDetector`: the `recent_votes` deque (maxlen 100),
the `alerts` list, and the warning lines it has logged.  The
`vote_thresholds` dict is constant (100000 / 60 / 0.95) and is inlined in
the rule functions below. -/
structure AnomalyDetector where
  recent_votes : List VoteEvent
  alerts : List Alert
  log : List LogMsg
deriving Repr

/-- The detector's initial state (`AnomalyDetector.__init__`). -/
def AnomalyDetector.init : AnomalyDetector := ⟨[], [], []⟩

/-- Source `AnomalyDetector._create_alert`: append an alert (severity from
`_get_severity`, timestamp `now`) and log a warning line. -/
def createAlert (now : ℚ) (d : AnomalyDetector) (alert_type : String)
    (event : VoteEvent) (message : String) : AnomalyDetector :=
  { d with
    alerts := d.alerts ++
      [⟨alert_type, now, event.proposal_id, event.voter, message, getSeverity alert_type⟩],
    log := d.log ++ [⟨.warning, "ANOMALY DETECTED: " ++ message⟩] }

/-- The filter of `_check_coordinated_voting`: buffered votes on the same
proposal whose timestamp is within (strictly less than) 300 seconds
before the current vote's. -/
def recentSameProposal (recent : List VoteEvent) (vote_event : VoteEvent) :
    List VoteEvent :=
  recent.filter fun v =>
    v.proposal_id == vote_event.proposal_id &&
      decide (vote_event.event_time - v.event_time < 300)

/-- The message of a `large_vote` alert. -/
def largeVoteMsg (vote_event : VoteEvent) : String :=
  "Large vote detected: " ++ toString vote_event.voting_power ++ " tokens"

/-- The message of a `rapid_voting` alert. -/
def rapidVoteMsg (time_diff : ℚ) : String :=
  "Rapid voting detected: " ++ toString time_diff ++ " seconds apart"

/-- The message of a `coordinated_voting` alert. -/
def coordVoteMsg (same_support total : Nat) : String :=
  "Potential coordinated voting: " ++ toString same_support ++ "/" ++
    toString total ++ " same votes"

/-- Source `AnomalyDetector._check_coordinated_voting`: among the windowed votes,
more than 5 votes with a same-support fraction above 0.95 raises a
`coordinated_voting` alert. -/
def checkCoordinatedVoting (now : ℚ) (d : AnomalyDetector) (vote_event : VoteEvent) :
    AnomalyDetector :=
  let recent_same := recentSameProposal d.recent_votes vote_event
  if 5 < recent_same.length then
    let same_support := (recent_same.filter fun v => v.support == vote_event.support).length
    if (95 : ℚ) / 100 < (same_support : ℚ) / (recent_same.length : ℚ) then
      createAlert now d "coordinated_voting" vote_event
        (coordVoteMsg same_support recent_same.length)
    else d
  else d

/-- Source `AnomalyDetector.check_voting_anomaly`: append the vote to the deque,
then run the large-vote, rapid-voting and coordinated-voting rules. -/
def checkVotingAnomaly (now : ℚ) (d : AnomalyDetector) (vote_event : VoteEvent) :
    AnomalyDetector :=
  let d1 : AnomalyDetector :=
    { d with recent_votes := dequeAppend 100 d.recent_votes vote_event }
  let d2 : AnomalyDetector :=
    if 100000 < vote_event.voting_power then
      createAlert now d1 "large_vote" vote_event (largeVoteMsg vote_event)
    else d1
  let d3 : AnomalyDetector :=
    if 1 < d1.recent_votes.length then
      match d1.recent_votes.get? (d1.recent_votes.length - 2) with
      | some prev =>
        let time_diff := vote_event.event_time - prev.event_time
        if time_diff < 60 then
          createAlert now d2 "rapid_voting" vote_event (rapidVoteMsg time_diff)
        else d2
      | none => d2
    else d2
  checkCoordinatedVoting now d3 vote_event

/-! ## Event processor (`EventProcessor` in `monitor.py`) -/

/-- One sample of `proposal_analytics[id]['voting_velocity']`. -/
structure VelocitySample where
  timestamp : ℚ
  cumulative_votes : Nat
deriving DecidableEq, Repr

/-- The value of `proposal_analytics[proposal_id]` (the dict built in
`process_proposal_event`).  `gas_analysis` and `sentiment_score` are
initialized and never mutated by the processor. -/
structure ProposalAnalytics where
  created_at : ℚ
  votes_for : Nat
  votes_against : Nat
  unique_voters : Finset String
  voting_velocity : List VelocitySample
  gas_total_spent : Nat
  gas_avg_price : Nat
  sentiment_score : ℚ
deriving DecidableEq

/-- One entry of `voting_patterns[voter]['votes']`. -/
structure VoterVote where
  proposal_id : Nat
  support : Bool
  power : Nat
  timestamp : ℚ
deriving DecidableEq, Repr

/-- State of an `EventProcessor`: `event_history['proposals']`, the
`voting_patterns` defaultdict (modelled as voter ↦ list of votes — the
inner dict holds only the `votes` key), `proposal_analytics`, the nested
`AnomalyDetector`, and the processor's own log lines. -/
structure EventProcessor where
  proposals_history : List ProposalEvent
  voting_patterns : List (String × List VoterVote)
  proposal_analytics : List (Nat × ProposalAnalytics)
  anomaly_detector : AnomalyDetector
  log : List LogMsg

/-- The processor's initial state (`EventProcessor.__init__`). -/
def EventProcessor.init : EventProcessor := ⟨[], [], [], AnomalyDetector.init, []⟩

/-- Source `EventProcessor.process_proposal_event`: record the event and
initialize the proposal's analytics entry (overwriting any previous entry
for the same id). -/
def processProposalEvent (p : EventProcessor) (event : ProposalEvent) :
    EventProcessor :=
  { p with
    log := p.log ++ [⟨.info, "Processing proposal " ++ toString event.proposal_id ++
      " on " ++ event.chain.value⟩],
    proposals_history := p.proposals_history ++ [event],
    proposal_analytics := insertA p.proposal_analytics event.proposal_id
      { created_at := event.event_time
        votes_for := 0
        votes_against := 0
        unique_voters := ∅
        voting_velocity := []
        gas_total_spent := 0
        gas_avg_price := 0
        sentiment_score := 0 } }

/-- The three mutations `process_vote_event` applies to a found analytics
entry: tally the power per the support flag, insert the voter into the
unique-voter set, append a velocity sample `(event time, updated
unique-voter count)`. -/
def applyVote (analytics : ProposalAnalytics) (event : VoteEvent) :
    ProposalAnalytics :=
  let a1 :=
    if event.support then
      { analytics with votes_for := analytics.votes_for + event.voting_power }
    else
      { analytics with votes_against := analytics.votes_against + event.voting_power }
  let a2 := { a1 with unique_voters := insert event.voter a1.unique_voters }
  { a2 with voting_velocity := a2.voting_velocity ++
    [⟨event.event_time, a2.unique_voters.card⟩] }

/-- Source `EventProcessor.process_vote_event`.  If the proposal id has an
analytics entry, tally the voting power per the support flag, insert the
voter into the unique-voter set and append a velocity sample; in every
case append to the voter's pattern and run the anomaly detector.  `now`
models `datetime.now()` used for alert timestamps. -/
def processVoteEvent (now : ℚ) (p : EventProcessor) (event : VoteEvent) :
    EventProcessor :=
  let analytics' :=
    match lookupA p.proposal_analytics event.proposal_id with
    | some analytics =>
      insertA p.proposal_analytics event.proposal_id (applyVote analytics event)
    | none => p.proposal_analytics
  let prior_votes := (lookupA p.voting_patterns event.voter).getD []
  { p with
    log := p.log ++ [⟨.info, "Processing vote for proposal " ++
      toString event.proposal_id ++ " by " ++ event.voter⟩],
    proposal_analytics := analytics'
    voting_patterns := insertA p.voting_patterns event.voter
      (prior_votes ++ [⟨event.proposal_id, event.support, event.voting_power,
        event.event_time⟩])
    anomaly_detector := checkVotingAnomaly now p.anomaly_detector event }

/-- Differences of consecutive elements (the `time_diffs` loop of
`get_proposal_analytics`). -/
def consecDiffs : List ℚ → List ℚ
  | a :: b :: rest => (b - a) :: consecDiffs (b :: rest)
  | _ => []

/-- The `np.mean` of an exact rational list (empty list handled by callers,
as in the source's `if time_diffs else 0`). -/
def npMean (l : List ℚ) : ℚ := l.sum / (l.length : ℚ)

/-- The snapshot dict returned by `get_proposal_analytics` for a known id.
`avg_voting_interval = none` models the key being absent from the dict
(it is set only when `voting_velocity` is non-empty). -/
structure AnalyticsSnapshot where
  created_at : ℚ
  votes_for : Nat
  votes_against : Nat
  unique_voters : Nat
  voting_velocity : List VelocitySample
  gas_total_spent : Nat
  gas_avg_price : Nat
  sentiment_score : ℚ
  avg_voting_interval : Option ℚ
deriving DecidableEq, Repr

/-- Source `EventProcessor.get_proposal_analytics`: `none` models the empty dict
returned for an unknown id; otherwise a snapshot with the unique-voter
count materialized and, when there is at least one velocity sample, the
mean of consecutive sample-timestamp deltas (0 when fewer than 2
samples). -/
def getProposalAnalytics (p : EventProcessor) (proposal_id : Nat) :
    Option AnalyticsSnapshot :=
  match lookupA p.proposal_analytics proposal_id with
  | none => none
  | some analytics =>
    let time_diffs := consecDiffs (analytics.voting_velocity.map (·.timestamp))
    some
      { created_at := analytics.created_at
        votes_for := analytics.votes_for
        votes_against := analytics.votes_against
        unique_voters := analytics.unique_voters.card
        voting_velocity := analytics.voting_velocity
        gas_total_spent := analytics.gas_total_spent
        gas_avg_price := analytics.gas_avg_price
        sentiment_score := analytics.sentiment_score
        avg_voting_interval :=
          if analytics.voting_velocity.isEmpty then none
          else some (if time_diffs.isEmpty then 0 else npMean time_diffs) }

/-- Source `EventProcessor._find_most_active_period`: votes are grouped by the
civil (UTC) year-month of their timestamp; the month with the most votes
wins, ties broken by first encountered.  Timestamps are seconds since the
epoch; `monthIndex` counts whole months since 1970-01 via the standard
civil-from-days conversion. -/
def civilMonthOfDay (z : Int) : Int :=
  let era : Int := (if 0 ≤ z + 719468 then z + 719468 else z + 719468 - 146096) / 146097
  let doe : Int := z + 719468 - era * 146097
  let yoe : Int := (doe - doe / 1460 + doe / 36524 - doe / 146096) / 365
  let doy : Int := doe - (365 * yoe + yoe / 4 - yoe / 100)
  let mp : Int := (5 * doy + 2) / 153
  let m : Int := if mp < 10 then mp + 3 else mp - 9
  let y : Int := yoe + era * 400 + (if m ≤ 2 then 1 else 0)
  y * 12 + (m - 1)

/-- Month key of a timestamp (counts months since year 0), the embedding
of `timestamp.strftime('%Y-%m')`. -/
def monthIndex (t : ℚ) : Int := civilMonthOfDay ⌊t / 86400⌋

/-- Tally in first-encountered order (the `monthly_counts` defaultdict). -/
def monthlyCounts (votes : List VoterVote) : List (Int × Nat) :=
  votes.foldl
    (fun acc v =>
      let k := monthIndex v.timestamp
      insertA acc k ((lookupA acc k).getD 0 + 1))
    []

/-- Python `max(monthly_counts, key=monthly_counts.get)`: first key attaining the
maximal count, in insertion order. -/
def maxByCount (counts : List (Int × Nat)) : Option Int :=
  let best := (counts.map (·.2)).foldl max 0
  (counts.find? (fun kv => kv.2 == best)).map (·.1)

/-- Result of `_find_most_active_period`, with the month key abstracted to
`monthIndex` form. -/
inductive ActivePeriod where
  | insufficient_data
  | no_data
  | month (idx : Int)
deriving DecidableEq, Repr

/-- Source `EventProcessor._find_most_active_period`. -/
def findMostActivePeriod (votes : List VoterVote) : ActivePeriod :=
  if votes.length < 2 then .insufficient_data
  else
    match maxByCount (monthlyCounts votes) with
    | none => .no_data
    | some m => .month m

/-- The dict returned by `get_voter_profile` for a voter with at least one
recorded vote. -/
structure VoterProfile where
  total_votes : Nat
  support_ratio : ℚ
  avg_voting_power : ℚ
  first_vote : ℚ
  last_vote : ℚ
  most_active_period : ActivePeriod
deriving DecidableEq, Repr

/-- Source `EventProcessor.get_voter_profile`: `none` models the empty dict
returned when the address is unknown or has an empty vote list. -/
def getVoterProfile (p : EventProcessor) (voter_address : String) :
    Option VoterProfile :=
  match lookupA p.voting_patterns voter_address with
  | none => none
  | some votes =>
    if votes.isEmpty then none
    else
      let total_votes := votes.length
      let support_votes := (votes.filter (·.support)).length
      some
        { total_votes := total_votes
          support_ratio := (support_votes : ℚ) / (total_votes : ℚ)
          avg_voting_power := npMean (votes.map fun v => (v.power : ℚ))
          first_vote := (votes.map (·.timestamp)).foldl min
            ((votes.map (·.timestamp)).headI)
          last_vote := (votes.map (·.timestamp)).foldl max
            ((votes.map (·.timestamp)).headI)
          most_active_period := findMostActivePeriod votes }

/-! ## Alert retention (`BlockchainMonitor._cleanup_old_data`) -/

/-- One pass of `_cleanup_old_data` over the alert list: keep exactly the
alerts whose creation time is strictly after `now` minus 7 days. -/
def cleanupOldData (now : ℚ) (alerts : List Alert) : List Alert :=
  let cutoff_time := now - 7 * 86400
  alerts.filter fun alert => decide (cutoff_time < alert.timestamp)

/-! ## Chain polling (`BlockchainMonitor._monitor_chain` / `_process_block`)

The network is abstracted as an oracle saying whether fetching the head
succeeds and, per block number, whether fetching/processing that block
succeeds.  `_process_block` catches every exception internally (logging
an error and returning), so only the head fetch can abort a pass. -/

/-- Network behaviour during one polling pass. -/
structure ChainOracle where
  headOk : Bool
  head : Nat
  blockOk : Nat → Bool

/-- Outcome of one iteration of the `while` body of `_monitor_chain`. -/
structure PassResult where
  last_block : Nat
  processed : List Nat
  block_errors : List Nat
  aborted : Bool

/-- One iteration of `_monitor_chain`'s loop body, starting from cursor
`last_block`.  If the head fetch raises, the `except` branch leaves the
cursor unchanged (30 s backoff, `aborted = true`).  Otherwise every block
in `(last_block, head]` is handed to `_process_block`, whose own
`try/except` swallows any error (recorded in `block_errors`), and the
cursor is then set to the fetched head. -/
def monitorChainPass (net : ChainOracle) (last_block : Nat) : PassResult :=
  if net.headOk then
    let current_block := net.head
    let start := if last_block = 0 then current_block - 100 else last_block
    let blocks := List.range' (start + 1) (current_block - start)
    { last_block := current_block
      processed := blocks.filter net.blockOk
      block_errors := blocks.filter fun b => !net.blockOk b
      aborted := false }
  else
    { last_block := last_block
      processed := []
      block_errors := []
      aborted := true }

/-! ## Structural lemmas about the detector -/

theorem createAlert_recent_votes (now : ℚ) (d : AnomalyDetector) (t : String)
    (e : VoteEvent) (m : String) :
    (createAlert now d t e m).recent_votes = d.recent_votes := rfl

theorem createAlert_alerts (now : ℚ) (d : AnomalyDetector) (t : String)
    (e : VoteEvent) (m : String) :
    (createAlert now d t e m).alerts
      = d.alerts ++ [⟨t, now, e.proposal_id, e.voter, m, getSeverity t⟩] := rfl

theorem checkCoordinatedVoting_recent_votes (now : ℚ) (d : AnomalyDetector)
    (e : VoteEvent) :
    (checkCoordinatedVoting now d e).recent_votes = d.recent_votes := by
  unfold checkCoordinatedVoting
  dsimp only
  split
  · split
    · rfl
    · rfl
  · rfl

/-- After `check_voting_anomaly`, the deque holds exactly the bounded
append of the incoming vote (no rule mutates the window). -/
theorem checkVotingAnomaly_recent_votes (now : ℚ) (d : AnomalyDetector)
    (e : VoteEvent) :
    (checkVotingAnomaly now d e).recent_votes
      = dequeAppend 100 d.recent_votes e := by
  unfold checkVotingAnomaly
  dsimp only
  rw [checkCoordinatedVoting_recent_votes]
  split
  · split
    · split
      · rw [createAlert_recent_votes]
        split
        · rfl
        · rfl
      · split
        · rfl
        · rfl
    · split
      · rfl
      · rfl
  · split
    · rfl
    · rfl

/-- The predicate picking out a coordinated-voting alert of severity
high. -/
def coordPred (a : Alert) : Bool :=
  a.type == "coordinated_voting" && a.severity == "high"

/-- The firing condition of `_check_coordinated_voting` over a window. -/
def coordCond (recent : List VoteEvent) (e : VoteEvent) : Prop :=
  5 < (recentSameProposal recent e).length ∧
    (95 : ℚ) / 100 <
      (((recentSameProposal recent e).filter fun v => v.support == e.support).length : ℚ) /
        ((recentSameProposal recent e).length : ℚ)

instance (recent : List VoteEvent) (e : VoteEvent) :
    Decidable (coordCond recent e) := by
  unfold coordCond
  infer_instance

theorem checkCoordinatedVoting_spec (now : ℚ) (d : AnomalyDetector)
    (e : VoteEvent) :
    ∃ T : List Alert, (checkCoordinatedVoting now d e).alerts = d.alerts ++ T ∧
      T.countP coordPred = (if coordCond d.recent_votes e then 1 else 0) := by
  unfold checkCoordinatedVoting coordCond
  dsimp only
  by_cases h1 : 5 < (recentSameProposal d.recent_votes e).length
  · rw [if_pos h1]
    by_cases h2 : (95 : ℚ) / 100 <
        ((((recentSameProposal d.recent_votes e).filter fun v =>
          v.support == e.support).length : ℚ) /
          ((recentSameProposal d.recent_votes e).length : ℚ))
    · rw [if_pos h2, if_pos ⟨h1, h2⟩]
      exact ⟨_, createAlert_alerts .., by simp [coordPred, getSeverity]⟩
    · rw [if_neg h2, if_neg (fun hc => h2 hc.2)]
      exact ⟨[], by simp, by simp⟩
  · rw [if_neg h1, if_neg (fun hc => h1 hc.1)]
    exact ⟨[], by simp, by simp⟩

theorem preStagesLeaf (now : ℚ) (dX : AnomalyDetector) (e : VoteEvent)
    (dalerts L : List Alert) (R : List VoteEvent)
    (hA : dX.alerts = dalerts ++ L) (hR : dX.recent_votes = R)
    (hL : L.countP coordPred = 0)
    (hbig : 100000 < e.voting_power →
      ∃ a ∈ L, a.proposal_id = e.proposal_id ∧ a.type = "large_vote") :
    ∃ L' T : List Alert,
      (checkCoordinatedVoting now dX e).alerts = dalerts ++ (L' ++ T) ∧
      L'.countP coordPred = 0 ∧
      T.countP coordPred = (if coordCond R e then 1 else 0) ∧
      (100000 < e.voting_power →
        ∃ a ∈ L', a.proposal_id = e.proposal_id ∧ a.type = "large_vote") := by
  obtain ⟨T, hT, hc⟩ := checkCoordinatedVoting_spec now dX e
  exact ⟨L, T, by rw [hT, hA, List.append_assoc], hL, by rw [hc, hR], hbig⟩

/-- The large-vote and rapid-voting stages only append alerts of their own
types; in particular no coordinated-voting alert, and a large-vote alert
for the event's proposal id whenever the power threshold is crossed. -/
theorem checkVotingAnomaly_pre_stages (now : ℚ) (d : AnomalyDetector)
    (e : VoteEvent) :
    ∃ L T : List Alert,
      (checkVotingAnomaly now d e).alerts = d.alerts ++ (L ++ T) ∧
      L.countP coordPred = 0 ∧
      T.countP coordPred =
        (if coordCond (dequeAppend 100 d.recent_votes e) e then 1 else 0) ∧
      (100000 < e.voting_power →
        ∃ a ∈ L, a.proposal_id = e.proposal_id ∧ a.type = "large_vote") := by
  unfold checkVotingAnomaly
  dsimp only
  by_cases hbig : 100000 < e.voting_power
  · rw [if_pos hbig]
    split
    · split
      · rename_i prev hprev
        split
        · exact preStagesLeaf now _ e d.alerts
            [⟨"large_vote", now, e.proposal_id, e.voter, largeVoteMsg e,
              getSeverity "large_vote"⟩,
             ⟨"rapid_voting", now, e.proposal_id, e.voter,
              rapidVoteMsg (e.event_time - prev.event_time),
              getSeverity "rapid_voting"⟩]
            (dequeAppend 100 d.recent_votes e)
            (by rw [createAlert_alerts, createAlert_alerts, List.append_assoc]; rfl)
            rfl (by simp [coordPred, getSeverity])
            (fun _ => ⟨⟨"large_vote", now, e.proposal_id, e.voter, largeVoteMsg e,
              getSeverity "large_vote"⟩, by simp, rfl, rfl⟩)
        · exact preStagesLeaf now _ e d.alerts
            [⟨"large_vote", now, e.proposal_id, e.voter, largeVoteMsg e,
              getSeverity "large_vote"⟩]
            (dequeAppend 100 d.recent_votes e) (createAlert_alerts ..)
            rfl (by simp [coordPred, getSeverity])
            (fun _ => ⟨⟨"large_vote", now, e.proposal_id, e.voter, largeVoteMsg e,
              getSeverity "large_vote"⟩, by simp, rfl, rfl⟩)
      · exact preStagesLeaf now _ e d.alerts
          [⟨"large_vote", now, e.proposal_id, e.voter, largeVoteMsg e,
            getSeverity "large_vote"⟩]
          (dequeAppend 100 d.recent_votes e) (createAlert_alerts ..)
          rfl (by simp [coordPred, getSeverity])
          (fun _ => ⟨⟨"large_vote", now, e.proposal_id, e.voter, largeVoteMsg e,
            getSeverity "large_vote"⟩, by simp, rfl, rfl⟩)
    · exact preStagesLeaf now _ e d.alerts
        [⟨"large_vote", now, e.proposal_id, e.voter, largeVoteMsg e,
          getSeverity "large_vote"⟩]
        (dequeAppend 100 d.recent_votes e) (createAlert_alerts ..)
        rfl (by simp [coordPred, getSeverity])
        (fun _ => ⟨⟨"large_vote", now, e.proposal_id, e.voter, largeVoteMsg e,
          getSeverity "large_vote"⟩, by simp, rfl, rfl⟩)
  · rw [if_neg hbig]
    split
    · split
      · rename_i prev hprev
        split
        · exact preStagesLeaf now _ e d.alerts
            [⟨"rapid_voting", now, e.proposal_id, e.voter,
              rapidVoteMsg (e.event_time - prev.event_time),
              getSeverity "rapid_voting"⟩]
            (dequeAppend 100 d.recent_votes e) (createAlert_alerts ..)
            rfl (by simp [coordPred, getSeverity])
            (fun h => absurd h hbig)
        · exact preStagesLeaf now _ e d.alerts []
            (dequeAppend 100 d.recent_votes e) (by simp) rfl (by simp)
            (fun h => absurd h hbig)
      · exact preStagesLeaf now _ e d.alerts []
          (dequeAppend 100 d.recent_votes e) (by simp) rfl (by simp)
          (fun h => absurd h hbig)
    · exact preStagesLeaf now _ e d.alerts []
        (dequeAppend 100 d.recent_votes e) (by simp) rfl (by simp)
        (fun h => absurd h hbig)

theorem foldl_checkVotingAnomaly_recent (es : List (ℚ × VoteEvent)) :
    ∀ d : AnomalyDetector,
      (es.foldl (fun q x => checkVotingAnomaly x.1 q x.2) d).recent_votes
        = (es.map (·.2)).foldl (dequeAppend 100) d.recent_votes := by
  induction es with
  | nil => intro d; rfl
  | cons x xs ih =>
    intro d
    simp only [List.foldl_cons, List.map_cons]
    rw [ih, checkVotingAnomaly_recent_votes]

/-! ## Structural lemmas about the processor's analytics map -/

theorem processVoteEvent_analytics_found (now : ℚ) (p : EventProcessor)
    (e : VoteEvent) (a : ProposalAnalytics)
    (h : lookupA p.proposal_analytics e.proposal_id = some a) :
    (processVoteEvent now p e).proposal_analytics
      = insertA p.proposal_analytics e.proposal_id (applyVote a e) := by
  unfold processVoteEvent
  dsimp only
  rw [h]

theorem processVoteEvent_analytics_notfound (now : ℚ) (p : EventProcessor)
    (e : VoteEvent)
    (h : lookupA p.proposal_analytics e.proposal_id = none) :
    (processVoteEvent now p e).proposal_analytics = p.proposal_analytics := by
  unfold processVoteEvent
  dsimp only
  rw [h]

theorem applyVote_sum (a : ProposalAnalytics) (e : VoteEvent) :
    (applyVote a e).votes_for + (applyVote a e).votes_against
      = a.votes_for + a.votes_against + e.voting_power := by
  cases he : e.support <;> simp [applyVote, he] <;> omega

theorem applyVote_voters (a : ProposalAnalytics) (e : VoteEvent) :
    (applyVote a e).unique_voters = insert e.voter a.unique_voters := by
  cases he : e.support <;> simp [applyVote, he]

theorem voteFold_analytics (pid : Nat) (es : List (ℚ × VoteEvent))
    (h : ∀ x ∈ es, x.2.proposal_id = pid) :
    ∀ (p : EventProcessor) (a : ProposalAnalytics),
      lookupA p.proposal_analytics pid = some a →
      lookupA (es.foldl (fun q x => processVoteEvent x.1 q x.2) p).proposal_analytics
          pid
        = some (es.foldl (fun b x => applyVote b x.2) a) := by
  induction es with
  | nil => intro p a hp; exact hp
  | cons x xs ih =>
    intro p a hp
    have hx : x.2.proposal_id = pid := h x (by simp)
    simp only [List.foldl_cons]
    apply ih (fun y hy => h y (by simp [hy]))
    rw [processVoteEvent_analytics_found x.1 p x.2 a (by rw [hx]; exact hp), hx,
      lookupA_insertA_self]

theorem applyVoteFold_sum (es : List (ℚ × VoteEvent)) :
    ∀ a : ProposalAnalytics,
      (es.foldl (fun b x => applyVote b x.2) a).votes_for
          + (es.foldl (fun b x => applyVote b x.2) a).votes_against
        = a.votes_for + a.votes_against + (es.map (·.2.voting_power)).sum := by
  induction es with
  | nil => intro a; simp
  | cons x xs ih =>
    intro a
    simp only [List.foldl_cons, List.map_cons, List.sum_cons]
    rw [ih, applyVote_sum]
    omega

theorem applyVoteFold_voters (es : List (ℚ × VoteEvent)) :
    ∀ a : ProposalAnalytics,
      (es.foldl (fun b x => applyVote b x.2) a).unique_voters
        = a.unique_voters ∪ (es.map (·.2.voter)).toFinset := by
  induction es with
  | nil => intro a; simp
  | cons x xs ih =>
    intro a
    simp only [List.foldl_cons, List.map_cons, List.toFinset_cons]
    rw [ih, applyVote_voters, Finset.insert_union, Finset.union_insert]

/-! ## Claim theorems -/

/-- C6: for every sequence of VoteCast events fed to the anomaly detector,
the recent-vote window never holds more than 100 entries, and after
inserting `100 + k` events it contains exactly the last 100 events in
arrival order (strict FIFO eviction). -/
theorem recentVoteWindow_bounded_C6 (es : List (ℚ × VoteEvent)) :
    (es.foldl (fun d x => checkVotingAnomaly x.1 d x.2)
        AnomalyDetector.init).recent_votes
      = (es.map (·.2)).drop (es.length - 100) ∧
    (es.foldl (fun d x => checkVotingAnomaly x.1 d x.2)
        AnomalyDetector.init).recent_votes.length ≤ 100 := by
  have h := foldl_checkVotingAnomaly_recent es AnomalyDetector.init
  have h2 := foldl_dequeAppend 100 (es.map (·.2)) []
    (by simp [AnomalyDetector.init])
  simp only [AnomalyDetector.init] at h h2 ⊢
  rw [h, h2]
  constructor
  · simp
  · simp
    omega

/-- C1: for every sequence of VoteCast events processed for a proposal id
that has an analytics entry created by a prior ProposalCreated, the
snapshot of `get_proposal_analytics` satisfies
`votes_for + votes_against = sum of the voting powers`, and its
unique-voter count equals the number of distinct voter addresses among
those events. -/
theorem vote_tally_C1 (p0 : EventProcessor) (pe : ProposalEvent)
    (es : List (ℚ × VoteEvent))
    (h : ∀ x ∈ es, x.2.proposal_id = pe.proposal_id) :
    ∃ s : AnalyticsSnapshot,
      getProposalAnalytics
          (es.foldl (fun q x => processVoteEvent x.1 q x.2)
            (processProposalEvent p0 pe))
          pe.proposal_id
        = some s ∧
      s.votes_for + s.votes_against = (es.map (·.2.voting_power)).sum ∧
      s.unique_voters = (es.map (·.2.voter)).toFinset.card := by
  have hinit : lookupA (processProposalEvent p0 pe).proposal_analytics
      pe.proposal_id = some ⟨pe.event_time, 0, 0, ∅, [], 0, 0, 0⟩ := by
    unfold processProposalEvent
    dsimp only
    rw [lookupA_insertA_self]
  have hfold := voteFold_analytics pe.proposal_id es h _ _ hinit
  unfold getProposalAnalytics
  rw [hfold]
  refine ⟨_, rfl, ?_, ?_⟩
  · simpa using applyVoteFold_sum es ⟨pe.event_time, 0, 0, ∅, [], 0, 0, 0⟩
  · dsimp only
    rw [applyVoteFold_voters]
    simp

/-- Witness for C1: a proposal followed by a supporting 500-power vote
from X and an opposing 300-power vote from Y yields 500 + 300 total
tallied power and 2 unique voters. -/
theorem vote_tally_C1_witness :
    ∃ s : AnalyticsSnapshot,
      getProposalAnalytics
          ([((0 : ℚ), (⟨1, "X", true, 500, "", 10, .ethereum⟩ : VoteEvent)),
            ((0 : ℚ), (⟨1, "Y", false, 300, "", 20, .ethereum⟩ : VoteEvent))].foldl
            (fun q x => processVoteEvent x.1 q x.2)
            (processProposalEvent EventProcessor.init
              ⟨1, "P", "t", "d", 0, 0, 0, 0, .ethereum⟩))
          1
        = some s ∧
      s.votes_for + s.votes_against
        = ([((0 : ℚ), (⟨1, "X", true, 500, "", 10, .ethereum⟩ : VoteEvent)),
            ((0 : ℚ), (⟨1, "Y", false, 300, "", 20, .ethereum⟩ : VoteEvent))].map
            (·.2.voting_power)).sum ∧
      s.unique_voters
        = ([((0 : ℚ), (⟨1, "X", true, 500, "", 10, .ethereum⟩ : VoteEvent)),
            ((0 : ℚ), (⟨1, "Y", false, 300, "", 20, .ethereum⟩ : VoteEvent))].map
            (·.2.voter)).toFinset.card :=
  vote_tally_C1 EventProcessor.init ⟨1, "P", "t", "d", 0, 0, 0, 0, .ethereum⟩
    [((0 : ℚ), ⟨1, "X", true, 500, "", 10, .ethereum⟩),
     ((0 : ℚ), ⟨1, "Y", false, 300, "", 20, .ethereum⟩)]
    (by decide)

/-- C7: replaying an already-processed VoteCast for an existing proposal
is not deduplicated: the second processing adds the voting power to the
tally again, while the unique-voter set is unchanged by the repeat. -/
theorem replay_not_deduplicated_C7 (n1 n2 : ℚ) (p : EventProcessor)
    (e : VoteEvent) (a : ProposalAnalytics)
    (h : lookupA p.proposal_analytics e.proposal_id = some a) :
    ∃ a1 a2 : ProposalAnalytics,
      lookupA (processVoteEvent n1 p e).proposal_analytics e.proposal_id
        = some a1 ∧
      lookupA (processVoteEvent n2 (processVoteEvent n1 p e) e).proposal_analytics
          e.proposal_id
        = some a2 ∧
      a2.votes_for + a2.votes_against
        = a.votes_for + a.votes_against + 2 * e.voting_power ∧
      a2.unique_voters = a1.unique_voters := by
  have h1 : lookupA (processVoteEvent n1 p e).proposal_analytics e.proposal_id
      = some (applyVote a e) := by
    rw [processVoteEvent_analytics_found n1 p e a h, lookupA_insertA_self]
  have h2 : lookupA
      (processVoteEvent n2 (processVoteEvent n1 p e) e).proposal_analytics
      e.proposal_id = some (applyVote (applyVote a e) e) := by
    rw [processVoteEvent_analytics_found n2 _ e _ h1, lookupA_insertA_self]
  refine ⟨_, _, h1, h2, ?_, ?_⟩
  · rw [applyVote_sum, applyVote_sum]
    omega
  · rw [applyVote_voters, applyVote_voters]
    simp

/-- Witness for C7: replaying X's 500-power vote on proposal 1 doubles the
tally while the unique-voter set stays `{X}`. -/
theorem replay_not_deduplicated_C7_witness :
    ∃ a1 a2 : ProposalAnalytics,
      lookupA (processVoteEvent 0
          (processProposalEvent EventProcessor.init
            ⟨1, "P", "t", "d", 0, 0, 0, 0, .ethereum⟩)
          ⟨1, "X", true, 500, "", 10, .ethereum⟩).proposal_analytics 1
        = some a1 ∧
      lookupA (processVoteEvent 0 (processVoteEvent 0
          (processProposalEvent EventProcessor.init
            ⟨1, "P", "t", "d", 0, 0, 0, 0, .ethereum⟩)
          ⟨1, "X", true, 500, "", 10, .ethereum⟩)
          ⟨1, "X", true, 500, "", 10, .ethereum⟩).proposal_analytics 1
        = some a2 ∧
      a2.votes_for + a2.votes_against = 0 + 0 + 2 * 500 ∧
      a2.unique_voters = a1.unique_voters :=
  replay_not_deduplicated_C7 0 0
    (processProposalEvent EventProcessor.init
      ⟨1, "P", "t", "d", 0, 0, 0, 0, .ethereum⟩)
    ⟨1, "X", true, 500, "", 10, .ethereum⟩
    ⟨0, 0, 0, ∅, [], 0, 0, 0⟩ rfl

/-- C4: processing a VoteCast creates a coordinated-voting alert of
severity high exactly when, among the buffered votes for the same
proposal id within the trailing 300 seconds of the current vote
(including the current vote), the count exceeds 5 and the fraction
sharing the current vote's support value exceeds 0.95. -/
theorem coordinated_voting_iff_C4 (now : ℚ) (p : EventProcessor)
    (e : VoteEvent) :
    ((processVoteEvent now p e).anomaly_detector.alerts.drop
        p.anomaly_detector.alerts.length).countP coordPred
      = if coordCond (dequeAppend 100 p.anomaly_detector.recent_votes e) e
        then 1 else 0 := by
  obtain ⟨L, T, hAlerts, hL, hT, _⟩ :=
    checkVotingAnomaly_pre_stages now p.anomaly_detector e
  unfold processVoteEvent
  dsimp only
  rw [hAlerts, List.drop_left, List.countP_append, hL, hT, Nat.zero_add]

/-- C5: `get_proposal_analytics` on an unknown proposal id and
`get_voter_profile` on an address with no recorded votes both return the
explicit empty result (`none`, modelling the empty dict); both accessors
are total functions of the state, so neither raises. -/
theorem accessors_empty_C5 (p : EventProcessor) (pid : Nat) (addr : String)
    (h1 : lookupA p.proposal_analytics pid = none)
    (h2 : (lookupA p.voting_patterns addr).getD [] = []) :
    getProposalAnalytics p pid = none ∧ getVoterProfile p addr = none := by
  constructor
  · unfold getProposalAnalytics
    rw [h1]
  · unfold getVoterProfile
    cases hv : lookupA p.voting_patterns addr with
    | none => rfl
    | some votes =>
      rw [hv] at h2
      simp only [Option.getD_some] at h2
      simp [h2]

/-- Witness for C5: both accessors return the empty result on the initial
state. -/
theorem accessors_empty_C5_witness :
    getProposalAnalytics EventProcessor.init 1 = none ∧
    getVoterProfile EventProcessor.init "X" = none :=
  accessors_empty_C5 EventProcessor.init 1 "X" rfl rfl

/-- C8 counterexample: at a cleanup pass at time 604800 s an alert created
at time 0 is exactly 7 days old — not *more* than 7 days — yet it is
removed, because the source keeps only alerts with
`timestamp > now - 7 days` strictly. -/
theorem cleanup_boundary_cex_C8 :
    cleanupOldData 604800 [⟨"large_vote", 0, 1, "X", "m", "medium"⟩] = [] ∧
    ¬ ((604800 : ℚ) - 0 > 7 * 86400) := by
  constructor
  · unfold cleanupOldData
    simp only [List.filter_cons, List.filter_nil]
    norm_num
  · norm_num

/-- C8 (amended): a cleanup pass keeps, as an order-preserving sublist of
the input, exactly the alerts strictly younger than 7 days — equivalently
it removes exactly the alerts created at least (rather than more than)
7 days before the pass. -/
theorem cleanup_retention_C8 (now : ℚ) (alerts : List Alert) :
    List.Sublist (cleanupOldData now alerts) alerts ∧
    ∀ a : Alert, a ∈ cleanupOldData now alerts ↔
      a ∈ alerts ∧ now - a.timestamp < 7 * 86400 := by
  refine ⟨List.filter_sublist _, fun a => ?_⟩
  unfold cleanupOldData
  simp only [List.mem_filter, decide_eq_true_eq]
  exact and_congr_right fun _ =>
    ⟨fun h => by linarith, fun h => by linarith⟩

/-- C3 counterexample: with the head fetch succeeding at block 5 and the
fetch of block 4 failing (a network error while fetching a block of the
pass), the pass is not abandoned — `_process_block` swallows the error —
and the cursor still advances from 3 to the fetched head 5. -/
theorem cursor_advance_cex_C3 :
    (monitorChainPass ⟨true, 5, fun b => b != 4⟩ 3).block_errors = [4] ∧
    (monitorChainPass ⟨true, 5, fun b => b != 4⟩ 3).last_block = 5 := by
  constructor
  · rfl
  · rfl

/-- C3 (amended): the cursor is left unchanged only when fetching the
chain head fails; when the head fetch succeeds the cursor advances to the
fetched head regardless of per-block fetch or processing errors — the
final cursor does not depend on which blocks failed. -/
theorem cursor_advance_C3 (net net' : ChainOracle) (cursor : Nat)
    (hh : net.headOk = net'.headOk) (hd : net.head = net'.head) :
    ((monitorChainPass net cursor).last_block
        = (monitorChainPass net' cursor).last_block) ∧
    (net.headOk = false → (monitorChainPass net cursor).last_block = cursor) ∧
    (net.headOk = true → (monitorChainPass net cursor).last_block = net.head) := by
  unfold monitorChainPass
  rw [← hh, ← hd]
  cases hok : net.headOk <;> simp [hok]

/-- Witness for C3 (amended): two oracles agreeing on the head but
disagreeing on which blocks fail yield the same cursor, which advances to
the head. -/
theorem cursor_advance_C3_witness :
    ((monitorChainPass ⟨true, 5, fun _ => true⟩ 3).last_block
        = (monitorChainPass ⟨true, 5, fun b => b != 4⟩ 3).last_block) ∧
    ((true : Bool) = false →
      (monitorChainPass ⟨true, 5, fun _ => true⟩ 3).last_block = 3) ∧
    ((true : Bool) = true →
      (monitorChainPass ⟨true, 5, fun _ => true⟩ 3).last_block = 5) :=
  cursor_advance_C3 ⟨true, 5, fun _ => true⟩ ⟨true, 5, fun b => b != 4⟩ 3
    rfl rfl

/-! ## Telescoping lemmas for the average voting interval -/

theorem consecDiffs_length (l : List ℚ) :
    (consecDiffs l).length = l.length - 1 := by
  induction l with
  | nil => rfl
  | cons a t ih =>
    cases t with
    | nil => rfl
    | cons b t' =>
      simp only [consecDiffs, List.length_cons] at ih ⊢
      omega

theorem consecDiffs_sum (a : ℚ) (l : List ℚ) :
    (consecDiffs (a :: l)).sum = l.getLastD a - a := by
  induction l generalizing a with
  | nil => simp [consecDiffs]
  | cons b t ih =>
    simp only [consecDiffs, List.sum_cons]
    rw [ih b, List.getLastD_cons]
    ring

/-- C9 counterexample: a proposal with an analytics entry but no votes
(zero velocity samples) yields a snapshot whose average-interval field is
absent (`none`), not equal to 0 — the source sets the key only when
`voting_velocity` is non-empty. -/
theorem avg_interval_cex_C9 :
    (getProposalAnalytics
        (processProposalEvent EventProcessor.init
          ⟨1, "P", "t", "d", 0, 0, 0, 0, .ethereum⟩) 1).map
      (fun s => s.avg_voting_interval) = some none := rfl

/-- C9 (amended): for a proposal with an analytics entry the snapshot's
average inter-vote interval equals the mean of consecutive
voting-velocity timestamp deltas — equivalently (last − first)/(n − 1) —
when there are at least 2 samples, equals 0 when there is exactly one
sample, and is absent when there are no samples (rather than 0 as the
claim states for the no-votes case). -/
theorem avg_interval_C9 (p : EventProcessor) (pid : Nat)
    (a : ProposalAnalytics)
    (h : lookupA p.proposal_analytics pid = some a) :
    ∃ s : AnalyticsSnapshot, getProposalAnalytics p pid = some s ∧
      s.avg_voting_interval =
        match a.voting_velocity.map (·.timestamp) with
        | [] => none
        | [_] => some 0
        | t :: ts => some ((ts.getLastD t - t) / (ts.length : ℚ)) := by
  unfold getProposalAnalytics
  rw [h]
  refine ⟨_, rfl, ?_⟩
  dsimp only
  cases hv : a.voting_velocity with
  | nil => rfl
  | cons v vs =>
    cases vs with
    | nil => rfl
    | cons w ws =>
      simp only [List.map_cons, List.isEmpty_cons, Bool.false_eq_true,
        if_false, consecDiffs]
      rw [npMean]
      have hsum := consecDiffs_sum v.timestamp
        (w.timestamp :: ws.map (·.timestamp))
      have hlen := consecDiffs_length
        (v.timestamp :: w.timestamp :: ws.map (·.timestamp))
      simp only [consecDiffs] at hsum hlen
      rw [hsum]
      have hlen2 : ((w.timestamp - v.timestamp) ::
          consecDiffs (w.timestamp :: ws.map (·.timestamp))).length
          = (w.timestamp :: ws.map (·.timestamp)).length := by
        rw [hlen]
        simp
      rw [hlen2]

/-- Witness for C9 (amended): an entry with velocity samples at times 10
and 30 yields an average interval of 20 seconds. -/
theorem avg_interval_C9_witness :
    ∃ s : AnalyticsSnapshot,
      getProposalAnalytics
          ⟨[], [], [(1, ⟨0, 0, 0, ∅, [⟨10, 1⟩, ⟨30, 2⟩], 0, 0, 0⟩)],
            AnomalyDetector.init, []⟩ 1
        = some s ∧
      s.avg_voting_interval = some 20 := by
  obtain ⟨s, hs, hval⟩ := avg_interval_C9
    ⟨[], [], [(1, ⟨0, 0, 0, ∅, [⟨10, 1⟩, ⟨30, 2⟩], 0, 0, 0⟩)],
      AnomalyDetector.init, []⟩ 1
    ⟨0, 0, 0, ∅, [⟨10, 1⟩, ⟨30, 2⟩], 0, 0, 0⟩ rfl
  refine ⟨s, hs, ?_⟩
  rw [hval]
  norm_num [List.getLastD]

/-- The coordinated-voting rule cannot fire with at most 5 buffered
votes. -/
theorem checkCoordinatedVoting_no_fire (now : ℚ) (d : AnomalyDetector)
    (e : VoteEvent) (h : d.recent_votes.length ≤ 5) :
    checkCoordinatedVoting now d e = d := by
  unfold checkCoordinatedVoting
  dsimp only
  rw [if_neg]
  intro hlt
  have hle : (recentSameProposal d.recent_votes e).length
      ≤ d.recent_votes.length := List.length_filter_le _ _
  omega

/-- Processing a first vote of non-large power into a detector with an
empty window only records the vote: no rule fires. -/
theorem checkVotingAnomaly_first_small (now : ℚ) (d : AnomalyDetector)
    (e : VoteEvent) (hr : d.recent_votes = [])
    (hp : ¬ 100000 < e.voting_power) :
    checkVotingAnomaly now d e = { d with recent_votes := [e] } := by
  unfold checkVotingAnomaly
  dsimp only
  rw [hr, if_neg hp]
  have hq : dequeAppend 100 ([] : List VoteEvent) e = [e] := rfl
  rw [hq]
  have h2 : ¬ 1 < ([e] : List VoteEvent).length := by simp
  rw [if_neg h2, checkCoordinatedVoting_no_fire now _ e (by simp)]

/-- C2 counterexample: processing a vote for proposal 1 in the initial
state (no analytics entry) does mutate aggregate state — the voter's
pattern list changes — and no warning is logged by the processor or the
detector, contradicting both the drop and the warning of the claim. -/
theorem drop_unknown_cex_C2 :
    (processVoteEvent 0 EventProcessor.init
        ⟨1, "X", true, 10, "", 0, .ethereum⟩).voting_patterns
      ≠ EventProcessor.init.voting_patterns ∧
    ((processVoteEvent 0 EventProcessor.init
        ⟨1, "X", true, 10, "", 0, .ethereum⟩).log.filter
      (fun m => m.level == LogLevel.warning)) = [] ∧
    (processVoteEvent 0 EventProcessor.init
        ⟨1, "X", true, 10, "", 0, .ethereum⟩).anomaly_detector.log = [] := by
  refine ⟨List.cons_ne_nil _ _, rfl, ?_⟩
  unfold processVoteEvent EventProcessor.init
  dsimp only
  rw [checkVotingAnomaly_first_small 0 _ _ rfl (by decide)]
  rfl

/-- C2 (amended): a VoteCast for an unknown proposal id leaves the
proposal-analytics map unmutated and the consumer continues non-fatally,
but the event is not fully dropped — the voter's pattern list is still
appended to — and no warning is logged: the processor emits only its
unconditional info line. -/
theorem drop_unknown_C2 (now : ℚ) (p : EventProcessor) (e : VoteEvent)
    (h : lookupA p.proposal_analytics e.proposal_id = none) :
    (processVoteEvent now p e).proposal_analytics = p.proposal_analytics ∧
    (processVoteEvent now p e).voting_patterns
      = insertA p.voting_patterns e.voter
        ((lookupA p.voting_patterns e.voter).getD []
          ++ [⟨e.proposal_id, e.support, e.voting_power, e.event_time⟩]) ∧
    (processVoteEvent now p e).log
      = p.log ++ [⟨.info, "Processing vote for proposal "
          ++ toString e.proposal_id ++ " by " ++ e.voter⟩] :=
  ⟨processVoteEvent_analytics_notfound now p e h, rfl, rfl⟩

/-- Witness for C2 (amended): concrete instance at the initial state. -/
theorem drop_unknown_C2_witness :
    (processVoteEvent 0 EventProcessor.init
        ⟨1, "Y", false, 7, "", 3, .ethereum⟩).proposal_analytics
      = EventProcessor.init.proposal_analytics ∧
    (processVoteEvent 0 EventProcessor.init
        ⟨1, "Y", false, 7, "", 3, .ethereum⟩).voting_patterns
      = insertA EventProcessor.init.voting_patterns "Y"
        ((lookupA EventProcessor.init.voting_patterns "Y").getD []
          ++ [⟨1, false, 7, 3⟩]) ∧
    (processVoteEvent 0 EventProcessor.init
        ⟨1, "Y", false, 7, "", 3, .ethereum⟩).log
      = EventProcessor.init.log ++ [⟨.info, "Processing vote for proposal "
          ++ toString (1 : Nat) ++ " by " ++ "Y"⟩] :=
  drop_unknown_C2 0 EventProcessor.init ⟨1, "Y", false, 7, "", 3, .ethereum⟩
    rfl

/-- C10: a VoteCast for a proposal id with no analytics entry still flows
into the voter's pattern — a subsequent `get_voter_profile` counts it in
total votes, support ratio and mean power — still enters the recent-vote
window, and still drives the anomaly rules, so an alert (here a large
vote) can reference a proposal id unknown to the analytics state. -/
theorem unknown_vote_side_effects_C10 (now : ℚ) (p : EventProcessor)
    (e : VoteEvent)
    (h : lookupA p.proposal_analytics e.proposal_id = none) :
    (∃ prof : VoterProfile,
      getVoterProfile (processVoteEvent now p e) e.voter = some prof ∧
      prof.total_votes
        = ((lookupA p.voting_patterns e.voter).getD []).length + 1 ∧
      prof.support_ratio
        = (((((lookupA p.voting_patterns e.voter).getD []
              ++ [⟨e.proposal_id, e.support, e.voting_power, e.event_time⟩]
              : List VoterVote).filter (·.support)).length : ℚ)
          / ((((lookupA p.voting_patterns e.voter).getD []).length + 1 : Nat) : ℚ)) ∧
      prof.avg_voting_power
        = npMean (((lookupA p.voting_patterns e.voter).getD []
            ++ [⟨e.proposal_id, e.support, e.voting_power, e.event_time⟩]
            : List VoterVote).map fun v => (v.power : ℚ))) ∧
    (processVoteEvent now p e).anomaly_detector.recent_votes
      = dequeAppend 100 p.anomaly_detector.recent_votes e ∧
    (100000 < e.voting_power →
      ∃ a ∈ (processVoteEvent now p e).anomaly_detector.alerts.drop
          p.anomaly_detector.alerts.length,
        a.proposal_id = e.proposal_id ∧ a.type = "large_vote") := by
  refine ⟨?_, ?_, ?_⟩
  · have hp : lookupA (processVoteEvent now p e).voting_patterns e.voter
        = some ((lookupA p.voting_patterns e.voter).getD []
          ++ [⟨e.proposal_id, e.support, e.voting_power, e.event_time⟩]) := by
      unfold processVoteEvent
      dsimp only
      rw [lookupA_insertA_self]
    unfold getVoterProfile
    rw [hp]
    dsimp only
    have hne : ((lookupA p.voting_patterns e.voter).getD []
        ++ [(⟨e.proposal_id, e.support, e.voting_power, e.event_time⟩
          : VoterVote)]).isEmpty = false := by
      simp
    rw [hne]
    simp only [Bool.false_eq_true, if_false]
    refine ⟨_, rfl, by simp, ?_, rfl⟩
    simp
  · unfold processVoteEvent
    dsimp only
    exact checkVotingAnomaly_recent_votes now p.anomaly_detector e
  · intro hbig
    obtain ⟨L, T, hAlerts, _, _, hlarge⟩ :=
      checkVotingAnomaly_pre_stages now p.anomaly_detector e
    obtain ⟨a, haL, hid, hty⟩ := hlarge hbig
    refine ⟨a, ?_, hid, hty⟩
    unfold processVoteEvent
    dsimp only
    rw [hAlerts, List.drop_left]
    exact List.mem_append_left _ haL

/-- Witness for C10: a 200000-power vote on unknown proposal 42 in the
initial state is still profiled, still buffered, and raises a large-vote
alert carrying the unknown proposal id. -/
theorem unknown_vote_side_effects_C10_witness :
    (∃ prof : VoterProfile,
      getVoterProfile (processVoteEvent 0 EventProcessor.init
          ⟨42, "X", true, 200000, "", 0, .ethereum⟩) "X" = some prof ∧
      prof.total_votes
        = ((lookupA EventProcessor.init.voting_patterns "X").getD []).length
          + 1 ∧
      prof.support_ratio
        = (((((lookupA EventProcessor.init.voting_patterns "X").getD []
              ++ [⟨42, true, 200000, 0⟩]
              : List VoterVote).filter (·.support)).length : ℚ)
          / ((((lookupA EventProcessor.init.voting_patterns "X").getD
              []).length + 1 : Nat) : ℚ)) ∧
      prof.avg_voting_power
        = npMean (((lookupA EventProcessor.init.voting_patterns "X").getD []
            ++ [⟨42, true, 200000, 0⟩]
            : List VoterVote).map fun v => (v.power : ℚ))) ∧
    (processVoteEvent 0 EventProcessor.init
        ⟨42, "X", true, 200000, "", 0, .ethereum⟩).anomaly_detector.recent_votes
      = dequeAppend 100 EventProcessor.init.anomaly_detector.recent_votes
          ⟨42, "X", true, 200000, "", 0, .ethereum⟩ ∧
    (100000 < 200000 →
      ∃ a ∈ (processVoteEvent 0 EventProcessor.init
          ⟨42, "X", true, 200000, "", 0, .ethereum⟩).anomaly_detector.alerts.drop
            EventProcessor.init.anomaly_detector.alerts.length,
        a.proposal_id = 42 ∧ a.type = "large_vote") :=
  unknown_vote_side_effects_C10 0 EventProcessor.init
    ⟨42, "X", true, 200000, "", 0, .ethereum⟩ rfl

end Monitor
